import Mathlib

/-!
Shallow embedding of the Dawarich route editor (`route_editor.py`) and proofs
about its route-query service and point-placement engine.

Modelling conventions:
* timestamps (`recorded_at`) are rational numbers of seconds since an epoch;
  `timedelta(seconds = k)` becomes addition of `k`;
* the SQL `DATE(recorded_at)` grouping is the day index `⌊t / 86400⌋`;
* real-valued machine arithmetic (coordinates, haversine trigonometry) is
  modelled over `ℝ`;
* the points table is a list of rows plus the next id the store will assign;
* the one fallible path of the engine (indexing `points[-1]` on an empty
  route) is modelled by an `Except`-style error value.
-/

open Real

namespace RouteEditor

/-- Day index of a timestamp: models SQL `DATE(recorded_at)`, the calendar
date a point was recorded, as the floor of `t / 86400` (days since epoch).
Computed on nums and dens so that it evaluates by `decide`. -/
def dateOf (t : ℚ) : ℤ := Int.fdiv t.num (t.den * 86400)

/-- Row of the `points` table, as selected and inserted by the editor.
Latitude and longitude are nullable in the store; the motion fields
(`accuracy`, `altitude`, `speed`, `battery`) are nullable numbers that never
feed trigonometry, so they are kept rational. -/
structure DBPoint where
  id : ℕ
  user_id : ℕ
  latitude : Option ℝ
  longitude : Option ℝ
  recorded_at : ℚ
  accuracy : Option ℚ
  altitude : Option ℚ
  speed : Option ℚ
  battery : Option ℚ

/-- The points table together with the id the store assigns to the next
inserted row (models the PostgreSQL sequence behind `RETURNING id`). -/
structure Store where
  nextId : ℕ
  points : List DBPoint

/-- Point as returned by `get_route_points`: the route query filters out rows
with null coordinates, so latitude and longitude are plain reals here. -/
structure RPoint where
  id : ℕ
  latitude : ℝ
  longitude : ℝ
  recorded_at : ℚ
  accuracy : Option ℚ
  altitude : Option ℚ
  speed : Option ℚ
  battery : Option ℚ

instance : Inhabited RPoint := ⟨⟨0, 0, 0, 0, none, none, none, none⟩⟩

/-- `RouteEditor.get_route_points`: all points of `uid` on date `d` with
non-null coordinates, ordered by `recorded_at` ascending. -/
def get_route_points (s : Store) (uid : ℕ) (d : ℤ) : List RPoint :=
  (s.points.filterMap fun p =>
    if p.user_id = uid ∧ dateOf p.recorded_at = d then
      match p.latitude, p.longitude with
      | some la, some lo =>
          some ⟨p.id, la, lo, p.recorded_at, p.accuracy, p.altitude, p.speed, p.battery⟩
      | _, _ => none
    else none).insertionSort fun a b => a.recorded_at ≤ b.recorded_at

/-- Degrees to radians: `math.radians`. -/
noncomputable def radians (d : ℝ) : ℝ := d * (π / 180)

/-- Two-argument arctangent with the usual `math.atan2` case split. -/
noncomputable def atan2 (y x : ℝ) : ℝ :=
  if 0 < x then arctan (y / x)
  else if x < 0 then (if 0 ≤ y then arctan (y / x) + π else arctan (y / x) - π)
  else if 0 < y then π / 2
  else if y < 0 then -(π / 2)
  else 0

/-- `RouteEditor.haversine_distance`: great-circle distance in meters on a
spherical Earth of radius 6 371 000 m, exactly as computed by the source. -/
noncomputable def haversine_distance (lat1 lon1 lat2 lon2 : ℝ) : ℝ :=
  let R : ℝ := 6371000
  let lat1_rad := radians lat1
  let lat2_rad := radians lat2
  let delta_lat := radians (lat2 - lat1)
  let delta_lon := radians (lon2 - lon1)
  let a := sin (delta_lat / 2) * sin (delta_lat / 2) +
      cos lat1_rad * cos lat2_rad * sin (delta_lon / 2) * sin (delta_lon / 2)
  let c := 2 * atan2 (Real.sqrt a) (Real.sqrt (1 - a))
  R * c

/-- Detour cost of inserting the new coordinate between two route points:
`dist1 + dist2 - original_dist` in `find_insertion_timestamp`. -/
noncomputable def distance_penalty (lat lon : ℝ) (p1 p2 : RPoint) : ℝ :=
  haversine_distance lat lon p1.latitude p1.longitude +
    haversine_distance lat lon p2.latitude p2.longitude -
    haversine_distance p1.latitude p1.longitude p2.latitude p2.longitude

/-- Selection loop of `find_insertion_timestamp`: starting from
`best_position = 0` and `min_distance_sum = float('inf')` (the top element of
`EReal`), scan gap indices `0, …, n-1` and keep the first index whose penalty
is strictly below the running minimum. -/
noncomputable def selectLoop (pen : ℕ → ℝ) (n : ℕ) : ℕ × EReal :=
  (List.range n).foldl
    (fun st i => if (pen i : EReal) < st.2 then (i, (pen i : EReal)) else st) (0, ⊤)

/-- Penalty of gap `i` (between `points[i]` and `points[i+1]`) of a route. -/
noncomputable def gapPen (lat lon : ℝ) (pts : List RPoint) (i : ℕ) : ℝ :=
  distance_penalty lat lon (pts.getD i default) (pts.getD (i + 1) default)

/-- Gap index chosen by the placement engine for a route of ≥ 2 points. -/
noncomputable def best_position (lat lon : ℝ) (pts : List RPoint) : ℕ :=
  (selectLoop (gapPen lat lon pts) (pts.length - 1)).1

/-- Exception escaping the engine: `points[-1]` on an empty list. -/
inductive PyErr where
  | indexError
deriving DecidableEq

/-- `RouteEditor.find_insertion_timestamp`. With fewer than 2 points the
source indexes `points[-1]` (raising `IndexError` when the route is empty)
and appends 30 seconds; otherwise it synthesizes the time midpoint of the
chosen gap. -/
noncomputable def find_insertion_timestamp (s : Store) (uid : ℕ) (d : ℤ)
    (lat lon : ℝ) : Except PyErr ℚ :=
  let points := get_route_points s uid d
  if points.length < 2 then
    match points.getLast? with
    | none => Except.error PyErr.indexError
    | some p => Except.ok (p.recorded_at + 30)
  else
    let b := best_position lat lon points
    let p1 := points.getD b default
    let p2 := points.getD (b + 1) default
    Except.ok (p1.recorded_at + (p2.recorded_at - p1.recorded_at) / 2)

/-- Outcome of `RouteEditor.add_point_to_route`: a committed insert
(`ok` carries the new store, the id returned by the insert and the final
timestamp), the structured `{'success': False, 'error': …}` dictionary built
by the function's exception handler, or an exception escaping the function
uncaught (the handler only wraps the store calls made after the timestamp is
computed). -/
inductive AddPointResult where
  | ok (s : Store) (point_id : ℕ) (timestamp : ℚ)
  | failure (error : String)
  | raised (e : PyErr)

/-- `RouteEditor.add_point_to_route`. The collision check-and-shift runs
once: if a row of the same user at exactly the candidate timestamp exists,
5 seconds are added, and the insert proceeds with no further check. The
accuracy column receives `accuracy or 20.0`, which in Python falls back to
the default also when the supplied accuracy equals `0.0` (falsy). -/
noncomputable def add_point_to_route (s : Store) (uid : ℕ) (d : ℤ) (lat lon : ℝ)
    (altitude accuracy : Option ℚ) : AddPointResult :=
  match find_insertion_timestamp s uid d lat lon with
  | Except.error e => AddPointResult.raised e
  | Except.ok ts0 =>
    let timestamp :=
      if s.points.any fun p => decide (p.user_id = uid ∧ p.recorded_at = ts0) then
        ts0 + 5
      else ts0
    let row : DBPoint :=
      { id := s.nextId, user_id := uid, latitude := some lat, longitude := some lon,
        recorded_at := timestamp,
        accuracy := some (match accuracy with | none => 20 | some x => if x = 0 then 20 else x),
        altitude := altitude, speed := none, battery := none }
    AddPointResult.ok { nextId := s.nextId + 1, points := s.points ++ [row] } s.nextId timestamp

/-- Outcome dictionary of `RouteEditor.delete_point`. -/
inductive DeleteResult where
  | success (message : String)
  | failure (error : String)
deriving DecidableEq

/-- `RouteEditor.delete_point`: `DELETE FROM points WHERE id = %s AND
user_id = %s RETURNING id`; the transaction is committed only when a row was
deleted, otherwise the store is left untouched and a single
"not found or not authorized" outcome is reported. -/
def delete_point (s : Store) (uid pid : ℕ) : Store × DeleteResult :=
  if s.points.any fun p => decide (p.id = pid ∧ p.user_id = uid) then
    ({ nextId := s.nextId,
       points := s.points.filter fun p => !decide (p.id = pid ∧ p.user_id = uid) },
      DeleteResult.success "Point deleted successfully")
  else (s, DeleteResult.failure "Point not found or not authorized")

/-- Route summary row of `get_user_routes`: date, count, time span and
bounding box. -/
structure RouteSummary where
  route_date : ℤ
  point_count : ℕ
  start_time : ℚ
  end_time : ℚ
  min_lat : ℝ
  max_lat : ℝ
  min_lon : ℝ
  max_lon : ℝ

/-- WHERE clause of `get_user_routes`: the user's points inside the lookback
window with non-null coordinates. -/
def qualifies (uid : ℕ) (cutoff : ℚ) (p : DBPoint) : Bool :=
  decide (p.user_id = uid ∧ cutoff ≤ p.recorded_at ∧ p.latitude.isSome ∧ p.longitude.isSome)

/-- Group of one route date in `get_user_routes`: the user's qualifying
points whose recorded date equals `d` (`GROUP BY DATE(recorded_at)`). -/
def routeGroup (s : Store) (uid : ℕ) (cutoff : ℚ) (d : ℤ) : List DBPoint :=
  (s.points.filter (qualifies uid cutoff)).filter fun p => decide (dateOf p.recorded_at = d)

/-- Aggregation of one date group of `get_user_routes`: `COUNT(*)`,
`MIN/MAX(recorded_at)` and the `MIN/MAX` of the non-null coordinates. -/
noncomputable def mkRouteSummary (s : Store) (uid : ℕ) (cutoff : ℚ) (d : ℤ) : RouteSummary :=
  { route_date := d
    point_count := (routeGroup s uid cutoff d).length
    start_time := (((routeGroup s uid cutoff d).map fun p => p.recorded_at).min?).getD 0
    end_time := (((routeGroup s uid cutoff d).map fun p => p.recorded_at).max?).getD 0
    min_lat := (((routeGroup s uid cutoff d).filterMap fun p => p.latitude).min?).getD 0
    max_lat := (((routeGroup s uid cutoff d).filterMap fun p => p.latitude).max?).getD 0
    min_lon := (((routeGroup s uid cutoff d).filterMap fun p => p.longitude).min?).getD 0
    max_lon := (((routeGroup s uid cutoff d).filterMap fun p => p.longitude).max?).getD 0 }

/-- `RouteEditor.get_user_routes`: group the qualifying points by calendar
date, keep groups of at least 5 points (`HAVING COUNT(*) >= 5`), order dates
descending (`ORDER BY route_date DESC`) and aggregate each group into a
summary. `now` is the clock value `datetime.now()`, so the cutoff is
`now - days_back` days. -/
noncomputable def get_user_routes (s : Store) (uid : ℕ) (days_back : ℕ) (now : ℚ) :
    List RouteSummary :=
  ((((s.points.filter (qualifies uid (now - (days_back : ℚ) * 86400))).map
      fun p => dateOf p.recorded_at).dedup.filter fun d =>
        decide (5 ≤ (routeGroup s uid (now - (days_back : ℚ) * 86400) d).length)).insertionSort
    fun a b => b ≤ a).map (mkRouteSummary s uid (now - (days_back : ℚ) * 86400))

/-! Selection-loop lemmas -/

lemma selectLoop_zero (pen : ℕ → ℝ) : selectLoop pen 0 = (0, ⊤) := by
  simp [selectLoop]

lemma selectLoop_succ (pen : ℕ → ℝ) (n : ℕ) :
    selectLoop pen (n + 1) =
      if (pen n : EReal) < (selectLoop pen n).2 then (n, (pen n : EReal))
      else selectLoop pen n := by
  simp [selectLoop, List.range_succ]

lemma selectLoop_spec (pen : ℕ → ℝ) :
    ∀ n, 1 ≤ n →
      (selectLoop pen n).1 < n ∧
      (selectLoop pen n).2 = ((pen (selectLoop pen n).1 : ℝ) : EReal) ∧
      (∀ i, i < n → pen (selectLoop pen n).1 ≤ pen i) ∧
      (∀ j, j < (selectLoop pen n).1 → pen (selectLoop pen n).1 < pen j) := by
  intro n
  induction n with
  | zero => omega
  | succ m ih =>
    intro _
    rcases Nat.eq_zero_or_pos m with hm | hm
    · subst hm
      rw [selectLoop_succ, selectLoop_zero]
      rw [if_pos (by simp [EReal.coe_lt_top])]
      refine ⟨Nat.zero_lt_one, rfl, ?_, by omega⟩
      intro i hi
      interval_cases i
      exact le_refl _
    · obtain ⟨h1, h2, h3, h4⟩ := ih hm
      rw [selectLoop_succ]
      by_cases hlt : ((pen m : ℝ) : EReal) < (selectLoop pen m).2
      · rw [if_pos hlt]
        have hstrict : pen m < pen (selectLoop pen m).1 := by
          rw [h2] at hlt
          exact_mod_cast hlt
        refine ⟨Nat.lt_succ_self m, rfl, ?_, ?_⟩
        · intro i hi
          rcases Nat.lt_succ_iff_lt_or_eq.mp hi with hi' | hi'
          · exact le_of_lt (lt_of_lt_of_le hstrict (h3 i hi'))
          · subst hi'; exact le_refl _
        · intro j hj
          exact lt_of_lt_of_le hstrict (h3 j hj)
      · rw [if_neg hlt]
        have hge : pen (selectLoop pen m).1 ≤ pen m := by
          rw [h2] at hlt
          have := not_lt.mp hlt
          exact_mod_cast this
        refine ⟨Nat.lt_succ_of_lt h1, h2, ?_, h4⟩
        intro i hi
        rcases Nat.lt_succ_iff_lt_or_eq.mp hi with hi' | hi'
        · exact h3 i hi'
        · subst hi'; exact hge

/-- Helper: the chosen gap index and its successor are valid indices for any
route of at least 2 points. -/
lemma best_position_add_one_lt (lat lon : ℝ) (pts : List RPoint)
    (h2 : 2 ≤ pts.length) : best_position lat lon pts + 1 < pts.length := by
  have hn : 1 ≤ pts.length - 1 := by omega
  obtain ⟨h1, -, -, -⟩ := selectLoop_spec (gapPen lat lon pts) (pts.length - 1) hn
  unfold best_position
  omega

/-- C1: for a route of at least 2 points ordered ascending by recorded
timestamp, the placement engine selects the adjacent pair whose haversine
penalty `dist_to_prev + dist_to_next - original_gap` is minimal over all
adjacent pairs, and on ties the smallest gap index wins: every gap strictly
before the chosen one has strictly larger penalty. -/
theorem best_position_minimizes_penalty (lat lon : ℝ) (pts : List RPoint)
    (_hsort : pts.Pairwise fun p q => p.recorded_at ≤ q.recorded_at)
    (h2 : 2 ≤ pts.length) :
    (∀ i, i < pts.length - 1 →
      gapPen lat lon pts (best_position lat lon pts) ≤ gapPen lat lon pts i) ∧
    (∀ j, j < best_position lat lon pts →
      gapPen lat lon pts (best_position lat lon pts) < gapPen lat lon pts j) := by
  have hn : 1 ≤ pts.length - 1 := by omega
  obtain ⟨-, -, h3, h4⟩ := selectLoop_spec (gapPen lat lon pts) (pts.length - 1) hn
  exact ⟨h3, h4⟩

/-- C1 witness at the spec's synthetic route. -/
theorem best_position_minimizes_penalty_witness :
    (([⟨1, 0, 0, 0, none, none, none, none⟩, ⟨2, 0, 1, 60, none, none, none, none⟩,
        ⟨3, 0, 2, 120, none, none, none, none⟩] : List RPoint).Pairwise
        fun p q => p.recorded_at ≤ q.recorded_at) ∧
    (2 ≤ ([⟨1, 0, 0, 0, none, none, none, none⟩, ⟨2, 0, 1, 60, none, none, none, none⟩,
        ⟨3, 0, 2, 120, none, none, none, none⟩] : List RPoint).length) ∧
    ((∀ i, i < ([⟨1, 0, 0, 0, none, none, none, none⟩, ⟨2, 0, 1, 60, none, none, none, none⟩,
        ⟨3, 0, 2, 120, none, none, none, none⟩] : List RPoint).length - 1 →
      gapPen 0 (1/2) [⟨1, 0, 0, 0, none, none, none, none⟩, ⟨2, 0, 1, 60, none, none, none, none⟩,
        ⟨3, 0, 2, 120, none, none, none, none⟩]
        (best_position 0 (1/2) [⟨1, 0, 0, 0, none, none, none, none⟩,
          ⟨2, 0, 1, 60, none, none, none, none⟩, ⟨3, 0, 2, 120, none, none, none, none⟩]) ≤
      gapPen 0 (1/2) [⟨1, 0, 0, 0, none, none, none, none⟩, ⟨2, 0, 1, 60, none, none, none, none⟩,
        ⟨3, 0, 2, 120, none, none, none, none⟩] i) ∧
    (∀ j, j < best_position 0 (1/2) [⟨1, 0, 0, 0, none, none, none, none⟩,
        ⟨2, 0, 1, 60, none, none, none, none⟩, ⟨3, 0, 2, 120, none, none, none, none⟩] →
      gapPen 0 (1/2) [⟨1, 0, 0, 0, none, none, none, none⟩, ⟨2, 0, 1, 60, none, none, none, none⟩,
        ⟨3, 0, 2, 120, none, none, none, none⟩]
        (best_position 0 (1/2) [⟨1, 0, 0, 0, none, none, none, none⟩,
          ⟨2, 0, 1, 60, none, none, none, none⟩, ⟨3, 0, 2, 120, none, none, none, none⟩]) <
      gapPen 0 (1/2) [⟨1, 0, 0, 0, none, none, none, none⟩, ⟨2, 0, 1, 60, none, none, none, none⟩,
        ⟨3, 0, 2, 120, none, none, none, none⟩] j)) :=
  ⟨by decide, by decide,
    best_position_minimizes_penalty 0 (1/2) _ (by decide) (by decide)⟩

/-- C9: for every route of at least 2 points and every new coordinate, the
gap index chosen by the selection loop of `find_insertion_timestamp` is at
most `len - 2`, so both point accesses used for timestamp synthesis are in
bounds, whatever real values the penalties take. -/
theorem best_position_in_bounds (lat lon : ℝ) (pts : List RPoint)
    (h2 : 2 ≤ pts.length) :
    best_position lat lon pts ≤ pts.length - 2 ∧
    best_position lat lon pts + 1 < pts.length := by
  have h := best_position_add_one_lt lat lon pts h2
  omega

/-- C9 witness on a concrete 3-point route. -/
theorem best_position_in_bounds_witness :
    (2 ≤ ([⟨1, 0, 0, 0, none, none, none, none⟩, ⟨2, 0, 1, 60, none, none, none, none⟩,
        ⟨3, 0, 2, 120, none, none, none, none⟩] : List RPoint).length) ∧
    (best_position 0 (1/2) [⟨1, 0, 0, 0, none, none, none, none⟩,
        ⟨2, 0, 1, 60, none, none, none, none⟩, ⟨3, 0, 2, 120, none, none, none, none⟩] ≤
      ([⟨1, 0, 0, 0, none, none, none, none⟩, ⟨2, 0, 1, 60, none, none, none, none⟩,
        ⟨3, 0, 2, 120, none, none, none, none⟩] : List RPoint).length - 2 ∧
    best_position 0 (1/2) [⟨1, 0, 0, 0, none, none, none, none⟩,
        ⟨2, 0, 1, 60, none, none, none, none⟩, ⟨3, 0, 2, 120, none, none, none, none⟩] + 1 <
      ([⟨1, 0, 0, 0, none, none, none, none⟩, ⟨2, 0, 1, 60, none, none, none, none⟩,
        ⟨3, 0, 2, 120, none, none, none, none⟩] : List RPoint).length) :=
  ⟨by decide, best_position_in_bounds 0 (1/2) _ (by decide)⟩

/-! Timestamp synthesis and insertion -/

/-- C2: for a route of at least 2 points with strictly increasing recorded
timestamps, the synthesized timestamp for the chosen gap is the exact time
midpoint `t_prev + (t_next - t_prev) / 2`, and it lies strictly between the
two neighbors' timestamps. -/
theorem insertion_timestamp_is_strict_midpoint (s : Store) (uid : ℕ) (d : ℤ)
    (lat lon : ℝ) (pts : List RPoint) (hpts : pts = get_route_points s uid d)
    (h2 : 2 ≤ pts.length)
    (hsort : pts.Pairwise fun p q => p.recorded_at < q.recorded_at)
    (t1 t2 : ℚ)
    (ht1 : t1 = (pts.getD (best_position lat lon pts) default).recorded_at)
    (ht2 : t2 = (pts.getD (best_position lat lon pts + 1) default).recorded_at) :
    find_insertion_timestamp s uid d lat lon = Except.ok (t1 + (t2 - t1) / 2) ∧
    t1 < t1 + (t2 - t1) / 2 ∧ t1 + (t2 - t1) / 2 < t2 := by
  subst hpts ht1 ht2
  have hb1 := best_position_add_one_lt lat lon (get_route_points s uid d) h2
  have hb0 : best_position lat lon (get_route_points s uid d) <
      (get_route_points s uid d).length := by omega
  have hlt : ((get_route_points s uid d).getD
        (best_position lat lon (get_route_points s uid d)) default).recorded_at <
      ((get_route_points s uid d).getD
        (best_position lat lon (get_route_points s uid d) + 1) default).recorded_at := by
    rw [List.getD_eq_getElem _ _ hb0, List.getD_eq_getElem _ _ hb1]
    exact List.pairwise_iff_getElem.mp hsort _ _ hb0 hb1 (Nat.lt_succ_self _)
  refine ⟨?_, by linarith, by linarith⟩
  rw [find_insertion_timestamp]
  rw [if_neg (by omega)]

/-- C2 witness: a concrete two-point route. -/
theorem insertion_timestamp_is_strict_midpoint_witness :
    (2 ≤ (get_route_points ⟨3, [⟨1, 7, some 40, some (-74), 0, none, none, none, none⟩,
        ⟨2, 7, some 40, some (-73), 600, none, none, none, none⟩]⟩ 7 0).length) ∧
    ((get_route_points ⟨3, [⟨1, 7, some 40, some (-74), 0, none, none, none, none⟩,
        ⟨2, 7, some 40, some (-73), 600, none, none, none, none⟩]⟩ 7 0).Pairwise
      fun p q => p.recorded_at < q.recorded_at) ∧
    (find_insertion_timestamp ⟨3, [⟨1, 7, some 40, some (-74), 0, none, none, none, none⟩,
        ⟨2, 7, some 40, some (-73), 600, none, none, none, none⟩]⟩ 7 0 40 (-73.5) =
      Except.ok
        (((get_route_points ⟨3, [⟨1, 7, some 40, some (-74), 0, none, none, none, none⟩,
            ⟨2, 7, some 40, some (-73), 600, none, none, none, none⟩]⟩ 7 0).getD
          (best_position 40 (-73.5) (get_route_points ⟨3,
            [⟨1, 7, some 40, some (-74), 0, none, none, none, none⟩,
             ⟨2, 7, some 40, some (-73), 600, none, none, none, none⟩]⟩ 7 0)) default).recorded_at +
        ((((get_route_points ⟨3, [⟨1, 7, some 40, some (-74), 0, none, none, none, none⟩,
            ⟨2, 7, some 40, some (-73), 600, none, none, none, none⟩]⟩ 7 0).getD
          (best_position 40 (-73.5) (get_route_points ⟨3,
            [⟨1, 7, some 40, some (-74), 0, none, none, none, none⟩,
             ⟨2, 7, some 40, some (-73), 600, none, none, none, none⟩]⟩ 7 0) + 1) default).recorded_at -
         ((get_route_points ⟨3, [⟨1, 7, some 40, some (-74), 0, none, none, none, none⟩,
            ⟨2, 7, some 40, some (-73), 600, none, none, none, none⟩]⟩ 7 0).getD
          (best_position 40 (-73.5) (get_route_points ⟨3,
            [⟨1, 7, some 40, some (-74), 0, none, none, none, none⟩,
             ⟨2, 7, some 40, some (-73), 600, none, none, none, none⟩]⟩ 7 0)) default).recorded_at) / 2))) := by
  refine ⟨by decide, by decide, ?_⟩
  exact (insertion_timestamp_is_strict_midpoint _ 7 0 40 (-73.5) _ rfl (by decide) (by decide)
    _ _ rfl rfl).1

/-! Degenerate routes (C3) -/

/-- C3 counterexample: on a zero-point route, `add_point_to_route` does not
return the structured "empty route" failure the claim describes; the index
error from `points[-1]` escapes the function uncaught. -/
theorem empty_route_raises_uncaught_index_error :
    add_point_to_route ⟨1, []⟩ 1 0 0 0 none none = AddPointResult.raised PyErr.indexError ∧
    ∀ msg : String, add_point_to_route ⟨1, []⟩ 1 0 0 0 none none ≠ AddPointResult.failure msg := by
  constructor
  · rfl
  · intro msg h
    rw [show add_point_to_route ⟨1, []⟩ 1 0 0 0 none none =
        AddPointResult.raised PyErr.indexError from rfl] at h
    exact AddPointResult.noConfusion h

/-- C3 amended: with exactly one point in the route the synthesized insertion
timestamp is exactly 30 seconds after that point's recorded timestamp; with
zero points the placement raises an uncaught index error (not a structured
failure result) and no row is inserted. -/
theorem few_points_insertion_policy (s : Store) (uid : ℕ) (d : ℤ) (lat lon : ℝ)
    (altitude accuracy : Option ℚ) :
    (∀ p : RPoint, get_route_points s uid d = [p] →
      find_insertion_timestamp s uid d lat lon = Except.ok (p.recorded_at + 30)) ∧
    (get_route_points s uid d = [] →
      add_point_to_route s uid d lat lon altitude accuracy =
        AddPointResult.raised PyErr.indexError) := by
  constructor
  · intro p hp
    rw [find_insertion_timestamp]
    rw [hp]
    rfl
  · intro hp
    have herr : find_insertion_timestamp s uid d lat lon = Except.error PyErr.indexError := by
      rw [find_insertion_timestamp]
      rw [hp]
      rfl
    rw [add_point_to_route.eq_def, herr]

/-- C3 witness: one-point and zero-point concrete stores. -/
theorem few_points_insertion_policy_witness :
    (get_route_points ⟨2, [⟨1, 7, some 40, some (-74), 100, none, none, none, none⟩]⟩ 7 0 =
      [⟨1, 40, -74, 100, none, none, none, none⟩]) ∧
    (find_insertion_timestamp ⟨2, [⟨1, 7, some 40, some (-74), 100, none, none, none, none⟩]⟩
      7 0 40 (-73) = Except.ok ((100 : ℚ) + 30)) ∧
    (get_route_points ⟨1, []⟩ 9 0 = []) ∧
    (add_point_to_route ⟨1, []⟩ 9 0 40 (-73) none none =
      AddPointResult.raised PyErr.indexError) :=
  ⟨rfl,
    (few_points_insertion_policy ⟨2, [⟨1, 7, some 40, some (-74), 100, none, none, none, none⟩]⟩
      7 0 40 (-73) none none).1 ⟨1, 40, -74, 100, none, none, none, none⟩ rfl,
    rfl,
    (few_points_insertion_policy ⟨1, []⟩ 9 0 40 (-73) none none).2 rfl⟩

/-! Collision handling (C4) -/

/-- C4: if a point of the same user already exists at exactly the candidate
timestamp, the assigned timestamp is shifted forward by exactly 5 seconds,
and the shift happens exactly once: the insert proceeds with the shifted
timestamp with no further existence check (the conclusion does not depend on
whether the shifted timestamp collides as well). -/
theorem collision_shift_exactly_once (s : Store) (uid : ℕ) (d : ℤ) (lat lon : ℝ)
    (altitude accuracy : Option ℚ) (ts0 : ℚ)
    (hfind : find_insertion_timestamp s uid d lat lon = Except.ok ts0)
    (hcol : ∃ p ∈ s.points, p.user_id = uid ∧ p.recorded_at = ts0) :
    add_point_to_route s uid d lat lon altitude accuracy =
      AddPointResult.ok
        { nextId := s.nextId + 1,
          points := s.points ++
            [{ id := s.nextId, user_id := uid, latitude := some lat, longitude := some lon,
               recorded_at := ts0 + 5,
               accuracy := some
                 (match accuracy with | none => 20 | some x => if x = 0 then 20 else x),
               altitude := altitude, speed := none, battery := none }] }
        s.nextId (ts0 + 5) := by
  rw [add_point_to_route.eq_def, hfind]
  have hany : (s.points.any fun p => decide (p.user_id = uid ∧ p.recorded_at = ts0)) = true := by
    rw [List.any_eq_true]
    obtain ⟨p, hp, h1, h2⟩ := hcol
    exact ⟨p, hp, by simp [h1, h2]⟩
  simp only [hany, if_true]

/-- C4 witness: the single-point route of user 7 at t = 100; a coordinate-less
row of the same user sits at the candidate timestamp 130, and another one at
the shifted timestamp 135 — the insert still proceeds at exactly 130 + 5. -/
theorem collision_shift_exactly_once_witness :
    (find_insertion_timestamp
        ⟨9, [⟨1, 7, some 40, some (-74), 100, none, none, none, none⟩,
             ⟨2, 7, none, none, 130, none, none, none, none⟩,
             ⟨3, 7, none, none, 135, none, none, none, none⟩]⟩ 7 0 40 (-73) =
      Except.ok ((100 : ℚ) + 30)) ∧
    (∃ p ∈ ([⟨1, 7, some 40, some (-74), 100, none, none, none, none⟩,
             ⟨2, 7, none, none, 130, none, none, none, none⟩,
             ⟨3, 7, none, none, 135, none, none, none, none⟩] : List DBPoint),
      p.user_id = 7 ∧ p.recorded_at = (100 : ℚ) + 30) ∧
    add_point_to_route
        ⟨9, [⟨1, 7, some 40, some (-74), 100, none, none, none, none⟩,
             ⟨2, 7, none, none, 130, none, none, none, none⟩,
             ⟨3, 7, none, none, 135, none, none, none, none⟩]⟩ 7 0 40 (-73) none none =
      AddPointResult.ok
        { nextId := 10,
          points := [⟨1, 7, some 40, some (-74), 100, none, none, none, none⟩,
             ⟨2, 7, none, none, 130, none, none, none, none⟩,
             ⟨3, 7, none, none, 135, none, none, none, none⟩] ++
            [{ id := 9, user_id := 7, latitude := some 40, longitude := some (-73),
               recorded_at := (100 : ℚ) + 30 + 5,
               accuracy := some 20, altitude := none, speed := none, battery := none }] }
        9 ((100 : ℚ) + 30 + 5) := by
  have hcol : ∃ p ∈ ([⟨1, 7, some 40, some (-74), 100, none, none, none, none⟩,
             ⟨2, 7, none, none, 130, none, none, none, none⟩,
             ⟨3, 7, none, none, 135, none, none, none, none⟩] : List DBPoint),
      p.user_id = 7 ∧ p.recorded_at = (100 : ℚ) + 30 := by
    refine ⟨⟨2, 7, none, none, 130, none, none, none, none⟩,
      List.mem_cons_of_mem _ (List.mem_cons_self _ _), rfl, by norm_num⟩
  exact ⟨rfl, hcol,
    collision_shift_exactly_once _ 7 0 40 (-73) none none ((100 : ℚ) + 30) rfl hcol⟩

/-- Insertion with no timestamp collision: helper evaluation lemma for
`add_point_to_route` used by concrete witnesses. -/
lemma add_point_no_collision (s : Store) (uid : ℕ) (d : ℤ) (lat lon : ℝ)
    (altitude accuracy : Option ℚ) (ts0 : ℚ)
    (hfind : find_insertion_timestamp s uid d lat lon = Except.ok ts0)
    (hnocol : (s.points.any fun p => decide (p.user_id = uid ∧ p.recorded_at = ts0)) = false) :
    add_point_to_route s uid d lat lon altitude accuracy =
      AddPointResult.ok
        { nextId := s.nextId + 1,
          points := s.points ++
            [{ id := s.nextId, user_id := uid, latitude := some lat, longitude := some lon,
               recorded_at := ts0,
               accuracy := some
                 (match accuracy with | none => 20 | some x => if x = 0 then 20 else x),
               altitude := altitude, speed := none, battery := none }] }
        s.nextId ts0 := by
  rw [add_point_to_route.eq_def, hfind]
  simp only [hnocol, Bool.false_eq_true, if_false]

/-! Inserted row contents (C6) -/

/-- C6 counterexample: the caller supplies accuracy 0, yet the inserted row
does not carry the supplied value — no row of the result store has accuracy
0; the Python expression `accuracy or 20.0` replaced it with the default. -/
theorem accuracy_zero_not_preserved :
    ∃ s2 : Store, ∃ pid : ℕ, ∃ ts : ℚ,
      add_point_to_route ⟨5, [⟨1, 7, some 40, some (-74), 100, none, none, none, none⟩]⟩
        7 0 41 (-75) none (some 0) = AddPointResult.ok s2 pid ts ∧
      s2.points.all (fun row => decide (row.accuracy ≠ some 0)) = true := by
  refine ⟨_, _, _,
    add_point_no_collision _ 7 0 41 (-75) none (some 0) ((100 : ℚ) + 30) rfl (by norm_num), ?_⟩
  decide

/-- C6 amended: every row inserted by `add_point_to_route` carries the
supplied accuracy when it is present and nonzero, the default 20.0 when the
accuracy is omitted or equal to 0 (Python `or` treats 0.0 as falsy), the
supplied altitude or null, and always null speed and null battery. -/
theorem inserted_row_fields (s : Store) (uid : ℕ) (d : ℤ) (lat lon : ℝ)
    (altitude accuracy : Option ℚ) (s2 : Store) (pid : ℕ) (ts : ℚ)
    (h : add_point_to_route s uid d lat lon altitude accuracy =
      AddPointResult.ok s2 pid ts) :
    ∃ row : DBPoint,
      s2.points = s.points ++ [row] ∧ row.id = pid ∧ row.user_id = uid ∧
      row.latitude = some lat ∧ row.longitude = some lon ∧ row.recorded_at = ts ∧
      (accuracy = none → row.accuracy = some 20) ∧
      (∀ x : ℚ, accuracy = some x → x ≠ 0 → row.accuracy = some x) ∧
      (accuracy = some 0 → row.accuracy = some 20) ∧
      row.altitude = altitude ∧ row.speed = none ∧ row.battery = none := by
  rw [add_point_to_route.eq_def] at h
  cases hf : find_insertion_timestamp s uid d lat lon with
  | error e => rw [hf] at h; exact absurd h (by simp)
  | ok ts0 =>
    rw [hf] at h
    simp only [AddPointResult.ok.injEq] at h
    obtain ⟨hs2, hpid, hts⟩ := h
    subst hs2
    subst hpid
    subst hts
    refine ⟨_, rfl, rfl, rfl, rfl, rfl, rfl, ?_, ?_, ?_, rfl, rfl, rfl⟩
    · intro ha; subst ha; rfl
    · intro x ha hx; subst ha; simp [hx]
    · intro ha; subst ha; simp

/-- C6 witness: a run with omitted accuracy and supplied altitude. -/
theorem inserted_row_fields_witness :
    (add_point_to_route ⟨5, [⟨1, 7, some 40, some (-74), 100, none, none, none, none⟩]⟩
        7 0 41 (-75) (some 12) none =
      AddPointResult.ok
        { nextId := 5 + 1,
          points := [⟨1, 7, some 40, some (-74), 100, none, none, none, none⟩] ++
            [{ id := 5, user_id := 7, latitude := some 41, longitude := some (-75),
               recorded_at := (100 : ℚ) + 30, accuracy := some 20, altitude := some 12,
               speed := none, battery := none }] }
        5 ((100 : ℚ) + 30)) ∧
    (∃ row : DBPoint,
      ({ nextId := 5 + 1,
         points := [⟨1, 7, some 40, some (-74), 100, none, none, none, none⟩] ++
            [{ id := 5, user_id := 7, latitude := some 41, longitude := some (-75),
               recorded_at := (100 : ℚ) + 30, accuracy := some 20, altitude := some 12,
               speed := none, battery := none }] } : Store).points =
        (⟨5, [⟨1, 7, some 40, some (-74), 100, none, none, none, none⟩]⟩ : Store).points ++ [row] ∧
      row.id = 5 ∧ row.user_id = 7 ∧
      row.latitude = some 41 ∧ row.longitude = some (-75) ∧
      row.recorded_at = (100 : ℚ) + 30 ∧
      ((none : Option ℚ) = none → row.accuracy = some 20) ∧
      (∀ x : ℚ, (none : Option ℚ) = some x → x ≠ 0 → row.accuracy = some x) ∧
      ((none : Option ℚ) = some 0 → row.accuracy = some 20) ∧
      row.altitude = some 12 ∧ row.speed = none ∧ row.battery = none) := by
  have hadd := add_point_no_collision
    ⟨5, [⟨1, 7, some 40, some (-74), 100, none, none, none, none⟩]⟩
    7 0 41 (-75) (some 12) none ((100 : ℚ) + 30) rfl (by norm_num)
  exact ⟨hadd, inserted_row_fields _ 7 0 41 (-75) (some 12) none _ 5 ((100 : ℚ) + 30) hadd⟩

/-! Deletion (C8, C10) -/

/-- Helper: a duplicate-free list whose elements are all equal has at most
one element. -/
lemma length_le_one_of_nodup_const {l : List ℕ} (hn : l.Nodup) (c : ℕ)
    (hall : ∀ x ∈ l, x = c) : l.length ≤ 1 := by
  match l with
  | [] => simp
  | [a] => simp
  | a :: b :: t =>
    exfalso
    have ha := hall a (by simp)
    have hb := hall b (by simp)
    rw [List.nodup_cons] at hn
    exact hn.1 (by rw [ha, ← hb]; simp)

/-- Helper: length splits over a Boolean test and its negation. -/
lemma filter_partition_length (l : List DBPoint) (f : DBPoint → Prop) [DecidablePred f] :
    l.length =
      (l.filter fun p => decide (f p)).length + (l.filter fun p => !decide (f p)).length := by
  induction l with
  | nil => rfl
  | cons a t ih =>
    by_cases h : f a <;> simp [List.filter_cons, h, ih] <;> omega

/-- Helper: a row removed by `delete_point` matches both the id and the
owner given as arguments. -/
lemma delete_point_removed_matches (s : Store) (uid pid : ℕ) :
    ∀ p ∈ s.points, p ∉ (delete_point s uid pid).1.points →
      p.id = pid ∧ p.user_id = uid := by
  intro p hp hnot
  by_contra hmatch
  apply hnot
  rw [delete_point]
  by_cases hany : (s.points.any fun p => decide (p.id = pid ∧ p.user_id = uid)) = true
  · rw [if_pos hany]
    simp only [List.mem_filter]
    exact ⟨hp, by simp only [Bool.not_eq_true', decide_eq_false_iff_not]; exact hmatch⟩
  · rw [if_neg hany]
    exact hp

/-- C8: `delete_point` deletes a row only when its owning user matches, and
a missing point id and a point id owned by a different user produce one and
the same "not found or not authorized" outcome: whenever no row has both the
given id and the given owner — for either reason — the returned value is the
identical failure result with the store unchanged. -/
theorem delete_point_ownership_single_outcome (s : Store) (uid pid : ℕ) :
    ((¬ ∃ p ∈ s.points, p.id = pid ∧ p.user_id = uid) →
      delete_point s uid pid =
        (s, DeleteResult.failure "Point not found or not authorized")) ∧
    (∀ p ∈ s.points, p ∉ (delete_point s uid pid).1.points →
      p.id = pid ∧ p.user_id = uid) := by
  constructor
  · intro hno
    rw [delete_point]
    rw [if_neg ?_]
    intro hany
    rw [List.any_eq_true] at hany
    obtain ⟨p, hp, hdec⟩ := hany
    exact hno ⟨p, hp, of_decide_eq_true hdec⟩
  · exact delete_point_removed_matches s uid pid

/-- C8 witness: point 1 exists but belongs to user 3; deleting it as user 2,
and deleting the absent id 99 as user 3, both hit the same single failure
outcome. -/
theorem delete_point_ownership_single_outcome_witness :
    (¬ ∃ p ∈ (⟨4, [⟨1, 3, some 40, some (-74), 100, none, none, none, none⟩]⟩ : Store).points,
        p.id = 1 ∧ p.user_id = 2) ∧
    (¬ ∃ p ∈ (⟨4, [⟨1, 3, some 40, some (-74), 100, none, none, none, none⟩]⟩ : Store).points,
        p.id = 99 ∧ p.user_id = 3) ∧
    delete_point ⟨4, [⟨1, 3, some 40, some (-74), 100, none, none, none, none⟩]⟩ 2 1 =
      (⟨4, [⟨1, 3, some 40, some (-74), 100, none, none, none, none⟩]⟩,
        DeleteResult.failure "Point not found or not authorized") ∧
    delete_point ⟨4, [⟨1, 3, some 40, some (-74), 100, none, none, none, none⟩]⟩ 3 99 =
      (⟨4, [⟨1, 3, some 40, some (-74), 100, none, none, none, none⟩]⟩,
        DeleteResult.failure "Point not found or not authorized") :=
  ⟨by decide, by decide,
    (delete_point_ownership_single_outcome
      ⟨4, [⟨1, 3, some 40, some (-74), 100, none, none, none, none⟩]⟩ 2 1).1 (by decide),
    (delete_point_ownership_single_outcome
      ⟨4, [⟨1, 3, some 40, some (-74), 100, none, none, none, none⟩]⟩ 3 99).1 (by decide)⟩

/-- C10: when point ids are unique in the store (the primary key),
`delete_point` removes at most one row — only a row whose id and owner both
match the arguments — keeps every other row of every user, and on the
failure outcome leaves the store completely unchanged. -/
theorem delete_point_frame (s : Store) (uid pid : ℕ)
    (hid : (s.points.map fun p => p.id).Nodup) :
    (∀ p ∈ s.points, p ∉ (delete_point s uid pid).1.points →
      p.id = pid ∧ p.user_id = uid) ∧
    (∀ p ∈ s.points, ¬(p.id = pid ∧ p.user_id = uid) →
      p ∈ (delete_point s uid pid).1.points) ∧
    s.points.length ≤ (delete_point s uid pid).1.points.length + 1 ∧
    (∀ msg, (delete_point s uid pid).2 = DeleteResult.failure msg →
      (delete_point s uid pid).1 = s) := by
  refine ⟨delete_point_removed_matches s uid pid, ?_, ?_, ?_⟩
  · intro p hp hmatch
    rw [delete_point]
    by_cases hany : (s.points.any fun p => decide (p.id = pid ∧ p.user_id = uid)) = true
    · rw [if_pos hany]
      simp only [List.mem_filter]
      exact ⟨hp, by simp only [Bool.not_eq_true', decide_eq_false_iff_not]; exact hmatch⟩
    · rw [if_neg hany]
      exact hp
  · rw [delete_point]
    by_cases hany : (s.points.any fun p => decide (p.id = pid ∧ p.user_id = uid)) = true
    · rw [if_pos hany]
      have hsplit := filter_partition_length s.points fun p => p.id = pid ∧ p.user_id = uid
      have hsub : (s.points.filter fun p => decide (p.id = pid ∧ p.user_id = uid)).Sublist
          s.points := List.filter_sublist _
      have hnod : ((s.points.filter fun p => decide (p.id = pid ∧ p.user_id = uid)).map
          fun p => p.id).Nodup :=
        List.Nodup.sublist (List.Sublist.map _ hsub) hid
      have hall : ∀ x ∈ (s.points.filter fun p => decide (p.id = pid ∧ p.user_id = uid)).map
          fun p => p.id, x = pid := by
        intro x hx
        rw [List.mem_map] at hx
        obtain ⟨p, hp, rfl⟩ := hx
        exact (of_decide_eq_true (List.mem_filter.mp hp).2).1
      have hone := length_le_one_of_nodup_const hnod pid hall
      rw [List.length_map] at hone
      show s.points.length ≤
        (s.points.filter fun p => !decide (p.id = pid ∧ p.user_id = uid)).length + 1
      omega
    · rw [if_neg hany]
      show s.points.length ≤ s.points.length + 1
      omega
  · intro msg hmsg
    rw [delete_point] at hmsg ⊢
    by_cases hany : (s.points.any fun p => decide (p.id = pid ∧ p.user_id = uid)) = true
    · rw [if_pos hany] at hmsg
      exact absurd hmsg (by simp)
    · rw [if_neg hany]

/-- C10 witness: store with two users' points, deleting point 1 of user 3. -/
theorem delete_point_frame_witness :
    ((((⟨5, [⟨1, 3, some 40, some (-74), 100, none, none, none, none⟩,
        ⟨2, 4, some 41, some (-75), 200, none, none, none, none⟩]⟩ : Store).points.map
      fun p => p.id).Nodup) ∧
    ((∀ p ∈ (⟨5, [⟨1, 3, some 40, some (-74), 100, none, none, none, none⟩,
        ⟨2, 4, some 41, some (-75), 200, none, none, none, none⟩]⟩ : Store).points,
      p ∉ (delete_point ⟨5, [⟨1, 3, some 40, some (-74), 100, none, none, none, none⟩,
        ⟨2, 4, some 41, some (-75), 200, none, none, none, none⟩]⟩ 3 1).1.points →
      p.id = 1 ∧ p.user_id = 3) ∧
    (∀ p ∈ (⟨5, [⟨1, 3, some 40, some (-74), 100, none, none, none, none⟩,
        ⟨2, 4, some 41, some (-75), 200, none, none, none, none⟩]⟩ : Store).points,
      ¬(p.id = 1 ∧ p.user_id = 3) →
      p ∈ (delete_point ⟨5, [⟨1, 3, some 40, some (-74), 100, none, none, none, none⟩,
        ⟨2, 4, some 41, some (-75), 200, none, none, none, none⟩]⟩ 3 1).1.points) ∧
    (⟨5, [⟨1, 3, some 40, some (-74), 100, none, none, none, none⟩,
        ⟨2, 4, some 41, some (-75), 200, none, none, none, none⟩]⟩ : Store).points.length ≤
      (delete_point ⟨5, [⟨1, 3, some 40, some (-74), 100, none, none, none, none⟩,
        ⟨2, 4, some 41, some (-75), 200, none, none, none, none⟩]⟩ 3 1).1.points.length + 1 ∧
    (∀ msg, (delete_point ⟨5, [⟨1, 3, some 40, some (-74), 100, none, none, none, none⟩,
        ⟨2, 4, some 41, some (-75), 200, none, none, none, none⟩]⟩ 3 1).2 =
        DeleteResult.failure msg →
      (delete_point ⟨5, [⟨1, 3, some 40, some (-74), 100, none, none, none, none⟩,
        ⟨2, 4, some 41, some (-75), 200, none, none, none, none⟩]⟩ 3 1).1 =
        ⟨5, [⟨1, 3, some 40, some (-74), 100, none, none, none, none⟩,
        ⟨2, 4, some 41, some (-75), 200, none, none, none, none⟩]⟩))) :=
  ⟨by decide,
    delete_point_frame ⟨5, [⟨1, 3, some 40, some (-74), 100, none, none, none, none⟩,
      ⟨2, 4, some 41, some (-75), 200, none, none, none, none⟩]⟩ 3 1 (by decide)⟩

/-! Route listing (C7) -/

/-- Helper: the defaulted minimum of a nonempty list is a member and a lower
bound. -/
lemma list_min_getD_spec {α : Type} [LinearOrder α] {l : List α} (hne : l ≠ []) (d : α) :
    l.min?.getD d ∈ l ∧ ∀ b ∈ l, l.min?.getD d ≤ b := by
  cases hm : l.min? with
  | none =>
    cases l with
    | nil => exact absurd rfl hne
    | cons a t => simp [List.min?] at hm
  | some a =>
    have h := (@List.min?_eq_some_iff α a _ _ ⟨fun h h' => le_antisymm h h'⟩
      (fun x => le_refl x) (fun a b => min_choice a b) (fun a b c => le_min_iff) l).mp hm
    simpa [hm] using h

/-- Helper: the defaulted maximum of a nonempty list is a member and an upper
bound. -/
lemma list_max_getD_spec {α : Type} [LinearOrder α] {l : List α} (hne : l ≠ []) (d : α) :
    l.max?.getD d ∈ l ∧ ∀ b ∈ l, b ≤ l.max?.getD d := by
  cases hm : l.max? with
  | none =>
    cases l with
    | nil => exact absurd rfl hne
    | cons a t => simp [List.max?] at hm
  | some a =>
    have h := (@List.max?_eq_some_iff α a _ _ ⟨fun h h' => le_antisymm h h'⟩
      (fun x => le_refl x) (fun a b => max_choice a b) (fun a b c => max_le_iff) l).mp hm
    simpa [hm] using h

lemma mkRouteSummary_route_date (s : Store) (uid : ℕ) (cutoff : ℚ) (d : ℤ) :
    (mkRouteSummary s uid cutoff d).route_date = d := rfl

/-- Membership characterization of `get_user_routes`. -/
lemma mem_get_user_routes {s : Store} {uid : ℕ} {days_back : ℕ} {now : ℚ}
    {r : RouteSummary} :
    r ∈ get_user_routes s uid days_back now ↔
    ∃ d : ℤ,
      (∃ p ∈ s.points.filter (qualifies uid (now - (days_back : ℚ) * 86400)),
        dateOf p.recorded_at = d) ∧
      5 ≤ (routeGroup s uid (now - (days_back : ℚ) * 86400) d).length ∧
      r = mkRouteSummary s uid (now - (days_back : ℚ) * 86400) d := by
  rw [get_user_routes, List.mem_map]
  constructor
  · rintro ⟨d, hd, rfl⟩
    have hd' := (List.Perm.mem_iff (List.perm_insertionSort _ _)).mp hd
    rw [List.mem_filter] at hd'
    obtain ⟨hdm, h5⟩ := hd'
    rw [List.mem_dedup, List.mem_map] at hdm
    obtain ⟨p, hp, hpd⟩ := hdm
    exact ⟨d, ⟨p, hp, hpd⟩, of_decide_eq_true h5, rfl⟩
  · rintro ⟨d, ⟨p, hp, hpd⟩, h5, rfl⟩
    refine ⟨d, ?_, rfl⟩
    apply (List.Perm.mem_iff (List.perm_insertionSort _ _)).mpr
    rw [List.mem_filter]
    exact ⟨List.mem_dedup.mpr (List.mem_map.mpr ⟨p, hp, hpd⟩), decide_eq_true h5⟩

/-- C7: `get_user_routes` returns exactly the dates in the lookback window
whose count of qualifying points (non-null coordinates) is at least 5,
ordered most recent date first, and each summary carries that group's point
count, its earliest and latest timestamp, and its coordinate bounding box. -/
theorem get_user_routes_spec (s : Store) (uid : ℕ) (days_back : ℕ) (now : ℚ) :
    (∀ d : ℤ,
      (∃ r ∈ get_user_routes s uid days_back now, r.route_date = d) ↔
        5 ≤ (routeGroup s uid (now - (days_back : ℚ) * 86400) d).length) ∧
    ((get_user_routes s uid days_back now).map fun r => r.route_date).Pairwise
      (fun a b => b < a) ∧
    (∀ r ∈ get_user_routes s uid days_back now,
      r.point_count = (routeGroup s uid (now - (days_back : ℚ) * 86400) r.route_date).length ∧
      5 ≤ r.point_count ∧
      (r.start_time ∈ (routeGroup s uid (now - (days_back : ℚ) * 86400) r.route_date).map
          fun p => p.recorded_at) ∧
      (∀ t ∈ (routeGroup s uid (now - (days_back : ℚ) * 86400) r.route_date).map
          fun p => p.recorded_at, r.start_time ≤ t ∧ t ≤ r.end_time) ∧
      (r.end_time ∈ (routeGroup s uid (now - (days_back : ℚ) * 86400) r.route_date).map
          fun p => p.recorded_at) ∧
      (r.min_lat ∈ (routeGroup s uid (now - (days_back : ℚ) * 86400) r.route_date).filterMap
          fun p => p.latitude) ∧
      (r.max_lat ∈ (routeGroup s uid (now - (days_back : ℚ) * 86400) r.route_date).filterMap
          fun p => p.latitude) ∧
      (∀ la ∈ (routeGroup s uid (now - (days_back : ℚ) * 86400) r.route_date).filterMap
          fun p => p.latitude, r.min_lat ≤ la ∧ la ≤ r.max_lat) ∧
      (r.min_lon ∈ (routeGroup s uid (now - (days_back : ℚ) * 86400) r.route_date).filterMap
          fun p => p.longitude) ∧
      (r.max_lon ∈ (routeGroup s uid (now - (days_back : ℚ) * 86400) r.route_date).filterMap
          fun p => p.longitude) ∧
      (∀ lo ∈ (routeGroup s uid (now - (days_back : ℚ) * 86400) r.route_date).filterMap
          fun p => p.longitude, r.min_lon ≤ lo ∧ lo ≤ r.max_lon)) := by
  refine ⟨?_, ?_, ?_⟩
  · intro d
    constructor
    · rintro ⟨r, hr, rfl⟩
      obtain ⟨d', -, h5, rfl⟩ := mem_get_user_routes.mp hr
      exact h5
    · intro h5
      have hpos : 0 < (routeGroup s uid (now - (days_back : ℚ) * 86400) d).length := by omega
      obtain ⟨p, hp⟩ := List.exists_mem_of_length_pos hpos
      rw [routeGroup, List.mem_filter] at hp
      exact ⟨mkRouteSummary s uid (now - (days_back : ℚ) * 86400) d,
        mem_get_user_routes.mpr ⟨d, ⟨p, hp.1, of_decide_eq_true hp.2⟩, h5, rfl⟩, rfl⟩
  · rw [get_user_routes, List.map_map]
    have h1 : ((fun r => r.route_date) ∘
        mkRouteSummary s uid (now - (days_back : ℚ) * 86400)) = id := by
      funext d
      rfl
    rw [h1, List.map_id]
    haveI : IsTotal ℤ (fun a b : ℤ => b ≤ a) := ⟨fun a b => le_total b a⟩
    haveI : IsTrans ℤ (fun a b : ℤ => b ≤ a) := ⟨fun a b c h1 h2 => le_trans h2 h1⟩
    have hsorted := List.sorted_insertionSort (fun a b : ℤ => b ≤ a)
      (((s.points.filter (qualifies uid (now - (days_back : ℚ) * 86400))).map
        (fun p => dateOf p.recorded_at)).dedup.filter fun d =>
          decide (5 ≤ (routeGroup s uid (now - (days_back : ℚ) * 86400) d).length))
    have hnodup : ((((s.points.filter (qualifies uid (now - (days_back : ℚ) * 86400))).map
        (fun p => dateOf p.recorded_at)).dedup.filter fun d =>
          decide (5 ≤ (routeGroup s uid (now - (days_back : ℚ) * 86400) d).length)).insertionSort
        fun a b => b ≤ a).Nodup :=
      (List.Perm.nodup_iff (List.perm_insertionSort _ _)).mpr
        ((List.nodup_dedup _).filter _)
    refine List.pairwise_iff_getElem.mpr fun i j hi hj hij => ?_
    have hle := List.pairwise_iff_getElem.mp hsorted i j hi hj hij
    exact lt_of_le_of_ne hle fun h =>
      absurd ((List.Nodup.getElem_inj_iff hnodup).mp h) (by omega)
  · intro r hr
    obtain ⟨d, -, h5, rfl⟩ := mem_get_user_routes.mp hr
    have hgne : routeGroup s uid (now - (days_back : ℚ) * 86400) d ≠ [] := by
      intro h0
      rw [h0] at h5
      simp at h5
    have htne : ((routeGroup s uid (now - (days_back : ℚ) * 86400) d).map
        fun p => p.recorded_at) ≠ [] := by
      simpa using hgne
    have hlatne : ((routeGroup s uid (now - (days_back : ℚ) * 86400) d).filterMap
        fun p => p.latitude) ≠ [] := by
      obtain ⟨p, hp⟩ := List.exists_mem_of_length_pos (by omega :
        0 < (routeGroup s uid (now - (days_back : ℚ) * 86400) d).length)
      have hq : qualifies uid (now - (days_back : ℚ) * 86400) p = true :=
        (List.mem_filter.mp (List.mem_filter.mp hp).1).2
      obtain ⟨-, -, hlat, -⟩ := of_decide_eq_true hq
      obtain ⟨la, hla⟩ := Option.isSome_iff_exists.mp hlat
      intro h0
      have hmem : la ∈ (routeGroup s uid (now - (days_back : ℚ) * 86400) d).filterMap
          fun p => p.latitude := List.mem_filterMap.mpr ⟨p, hp, hla⟩
      rw [h0] at hmem
      exact absurd hmem (by simp)
    have hlonne : ((routeGroup s uid (now - (days_back : ℚ) * 86400) d).filterMap
        fun p => p.longitude) ≠ [] := by
      obtain ⟨p, hp⟩ := List.exists_mem_of_length_pos (by omega :
        0 < (routeGroup s uid (now - (days_back : ℚ) * 86400) d).length)
      have hq : qualifies uid (now - (days_back : ℚ) * 86400) p = true :=
        (List.mem_filter.mp (List.mem_filter.mp hp).1).2
      obtain ⟨-, -, -, hlon⟩ := of_decide_eq_true hq
      obtain ⟨lo, hlo⟩ := Option.isSome_iff_exists.mp hlon
      intro h0
      have hmem : lo ∈ (routeGroup s uid (now - (days_back : ℚ) * 86400) d).filterMap
          fun p => p.longitude := List.mem_filterMap.mpr ⟨p, hp, hlo⟩
      rw [h0] at hmem
      exact absurd hmem (by simp)
    obtain ⟨hts1, hts2⟩ := list_min_getD_spec htne (0 : ℚ)
    obtain ⟨hte1, hte2⟩ := list_max_getD_spec htne (0 : ℚ)
    obtain ⟨hla1, hla2⟩ := list_min_getD_spec hlatne (0 : ℝ)
    obtain ⟨hla3, hla4⟩ := list_max_getD_spec hlatne (0 : ℝ)
    obtain ⟨hlo1, hlo2⟩ := list_min_getD_spec hlonne (0 : ℝ)
    obtain ⟨hlo3, hlo4⟩ := list_max_getD_spec hlonne (0 : ℝ)
    exact ⟨rfl, h5, hts1, fun t ht => ⟨hts2 t ht, hte2 t ht⟩, hte1,
      hla1, hla3, fun la hla => ⟨hla2 la hla, hla4 la hla⟩,
      hlo1, hlo3, fun lo hlo => ⟨hlo2 lo hlo, hlo4 lo hlo⟩⟩

/-- C7 witness: user 7 has six qualifying points on day 0 and one on day 1;
only day 0 is listed. -/
theorem get_user_routes_spec_witness :
    ((∃ r ∈ get_user_routes ⟨9, [⟨1, 7, some 40, some (-74), 100, none, none, none, none⟩,
        ⟨2, 7, some 40, some (-74), 200, none, none, none, none⟩,
        ⟨3, 7, some 40, some (-74), 300, none, none, none, none⟩,
        ⟨4, 7, some 40, some (-74), 400, none, none, none, none⟩,
        ⟨5, 7, some 40, some (-74), 500, none, none, none, none⟩,
        ⟨6, 7, some 40, some (-74), 600, none, none, none, none⟩,
        ⟨8, 7, some 40, some (-74), 86500, none, none, none, none⟩]⟩ 7 30 86400,
        r.route_date = 0) ↔
      5 ≤ (routeGroup ⟨9, [⟨1, 7, some 40, some (-74), 100, none, none, none, none⟩,
        ⟨2, 7, some 40, some (-74), 200, none, none, none, none⟩,
        ⟨3, 7, some 40, some (-74), 300, none, none, none, none⟩,
        ⟨4, 7, some 40, some (-74), 400, none, none, none, none⟩,
        ⟨5, 7, some 40, some (-74), 500, none, none, none, none⟩,
        ⟨6, 7, some 40, some (-74), 600, none, none, none, none⟩,
        ⟨8, 7, some 40, some (-74), 86500, none, none, none, none⟩]⟩ 7
          ((86400 : ℚ) - (30 : ℕ) * 86400) 0).length) :=
  (get_user_routes_spec ⟨9, [⟨1, 7, some 40, some (-74), 100, none, none, none, none⟩,
        ⟨2, 7, some 40, some (-74), 200, none, none, none, none⟩,
        ⟨3, 7, some 40, some (-74), 300, none, none, none, none⟩,
        ⟨4, 7, some 40, some (-74), 400, none, none, none, none⟩,
        ⟨5, 7, some 40, some (-74), 500, none, none, none, none⟩,
        ⟨6, 7, some 40, some (-74), 600, none, none, none, none⟩,
        ⟨8, 7, some 40, some (-74), 86500, none, none, none, none⟩]⟩ 7 30 86400).1 0


/-! Haversine geometry (C5) -/

open RealInnerProductSpace in
/-- Unit vector of a point on the sphere given in radian latitude/longitude. -/
noncomputable def sphVec (phi lam : ℝ) : EuclideanSpace ℝ (Fin 3) :=
  ![Real.cos phi * Real.cos lam, Real.cos phi * Real.sin lam, Real.sin phi]

open RealInnerProductSpace

lemma sphVec_inner (phi1 lam1 phi2 lam2 : ℝ) :
    ⟪sphVec phi1 lam1, sphVec phi2 lam2⟫ =
      Real.sin phi1 * Real.sin phi2 +
        Real.cos phi1 * Real.cos phi2 * Real.cos (lam1 - lam2) := by
  simp only [sphVec, PiLp.inner_apply, RCLike.inner_apply, conj_trivial, Fin.sum_univ_three]
  rw [Real.cos_sub]
  simp only [Matrix.cons_val_zero, Matrix.cons_val_one, Matrix.head_cons,
    Matrix.cons_val_two, Matrix.tail_cons]
  ring

lemma sphVec_inner_self (phi lam : ℝ) : ⟪sphVec phi lam, sphVec phi lam⟫ = 1 := by
  rw [sphVec_inner, sub_self, Real.cos_zero]
  have h := Real.sin_sq_add_cos_sq phi
  nlinarith [h]

lemma sphVec_norm (phi lam : ℝ) : ‖sphVec phi lam‖ = 1 := by
  have h := real_inner_self_eq_norm_mul_norm (sphVec phi lam)
  rw [sphVec_inner_self phi lam] at h
  nlinarith [norm_nonneg (sphVec phi lam)]

lemma sphVec_inner_abs_le (phi1 lam1 phi2 lam2 : ℝ) :
    |⟪sphVec phi1 lam1, sphVec phi2 lam2⟫| ≤ 1 := by
  have h := abs_real_inner_le_norm (sphVec phi1 lam1) (sphVec phi2 lam2)
  rwa [sphVec_norm, sphVec_norm, one_mul] at h

/-- Cauchy–Schwarz in the orthogonal complement of the middle unit vector:
the inner product of the outer pair is at least
`cos α cos β - sin α sin β` written through the inner products. -/
lemma inner_ge_of_unit {u v w : EuclideanSpace ℝ (Fin 3)}
    (hu : ⟪u, u⟫ = 1) (hv : ⟪v, v⟫ = 1) (hw : ⟪w, w⟫ = 1) :
    ⟪u, v⟫ * ⟪v, w⟫ -
      Real.sqrt (1 - ⟪u, v⟫ ^ 2) * Real.sqrt (1 - ⟪v, w⟫ ^ 2) ≤ ⟪u, w⟫ := by
  have hexp : ⟪u - ⟪u, v⟫ • v, w - ⟪v, w⟫ • v⟫ =
      ⟪u, w⟫ - ⟪u, v⟫ * ⟪v, w⟫ := by
    rw [inner_sub_left, inner_sub_right, inner_sub_right, real_inner_smul_left,
      real_inner_smul_left, real_inner_smul_right, real_inner_smul_right, hv]
    ring
  have hnu : ‖u - ⟪u, v⟫ • v‖ = Real.sqrt (1 - ⟪u, v⟫ ^ 2) := by
    have h1 : ⟪u - ⟪u, v⟫ • v, u - ⟪u, v⟫ • v⟫ = 1 - ⟪u, v⟫ ^ 2 := by
      rw [inner_sub_left, inner_sub_right, inner_sub_right, real_inner_smul_left,
        real_inner_smul_left, real_inner_smul_right, real_inner_smul_right, hu, hv,
        real_inner_comm u v]
      ring
    rw [← h1, real_inner_self_eq_norm_mul_norm, Real.sqrt_mul_self (norm_nonneg _)]
  have hnw : ‖w - ⟪v, w⟫ • v‖ = Real.sqrt (1 - ⟪v, w⟫ ^ 2) := by
    have h1 : ⟪w - ⟪v, w⟫ • v, w - ⟪v, w⟫ • v⟫ = 1 - ⟪v, w⟫ ^ 2 := by
      rw [inner_sub_left, inner_sub_right, inner_sub_right, real_inner_smul_left,
        real_inner_smul_left, real_inner_smul_right, real_inner_smul_right, hw, hv,
        real_inner_comm v w]
      ring
    rw [← h1, real_inner_self_eq_norm_mul_norm, Real.sqrt_mul_self (norm_nonneg _)]
  have hcs := abs_real_inner_le_norm (u - ⟪u, v⟫ • v) (w - ⟪v, w⟫ • v)
  rw [hexp, hnu, hnw] at hcs
  have habs := neg_abs_le (⟪u, w⟫ - ⟪u, v⟫ * ⟪v, w⟫)
  linarith

/-- Triangle inequality for `arccos` of inner-product-like quantities. -/
lemma arccos_triangle {x y z : ℝ} (hx : |x| ≤ 1) (hy : |y| ≤ 1)
    (hkey : x * y - Real.sqrt (1 - x ^ 2) * Real.sqrt (1 - y ^ 2) ≤ z) :
    Real.arccos z ≤ Real.arccos x + Real.arccos y := by
  rcases le_or_lt π (Real.arccos x + Real.arccos y) with hpi | hpi
  · exact le_trans (Real.arccos_le_pi z) hpi
  · obtain ⟨hx1, hx2⟩ := abs_le.mp hx
    obtain ⟨hy1, hy2⟩ := abs_le.mp hy
    have hcos : Real.cos (Real.arccos x + Real.arccos y) =
        x * y - Real.sqrt (1 - x ^ 2) * Real.sqrt (1 - y ^ 2) := by
      rw [Real.cos_add, Real.cos_arccos hx1 hx2, Real.cos_arccos hy1 hy2,
        Real.sin_arccos, Real.sin_arccos]
    have hmono : Real.arcsin (Real.cos (Real.arccos x + Real.arccos y)) ≤ Real.arcsin z :=
      Real.monotone_arcsin (by rw [hcos]; exact hkey)
    have h1 : Real.arccos (Real.cos (Real.arccos x + Real.arccos y)) =
        Real.arccos x + Real.arccos y :=
      Real.arccos_cos (add_nonneg (Real.arccos_nonneg x) (Real.arccos_nonneg y))
        (le_of_lt hpi)
    rw [← h1, Real.arccos_eq_pi_div_two_sub_arcsin, Real.arccos_eq_pi_div_two_sub_arcsin]
    linarith

/-- Evaluation of the `atan2`-form of the haversine central angle. -/
lemma two_atan2_sqrt (a : ℝ) (h0 : 0 ≤ a) (h1 : a ≤ 1) :
    2 * atan2 (Real.sqrt a) (Real.sqrt (1 - a)) = Real.arccos (1 - 2 * a) := by
  have hsub : (0 : ℝ) ≤ 1 - a := by linarith
  have hsle : Real.sqrt (1 - a) ≤ 1 := by
    calc Real.sqrt (1 - a) ≤ Real.sqrt 1 := Real.sqrt_le_sqrt (by linarith)
    _ = 1 := Real.sqrt_one
  have hcosθ : Real.cos (Real.arccos (Real.sqrt (1 - a))) = Real.sqrt (1 - a) :=
    Real.cos_arccos (by linarith [Real.sqrt_nonneg (1 - a)]) hsle
  have hsinθ : Real.sin (Real.arccos (Real.sqrt (1 - a))) = Real.sqrt a := by
    rw [Real.sin_arccos, Real.sq_sqrt hsub]
    congr 1
    ring
  have hθ0 : 0 ≤ Real.arccos (Real.sqrt (1 - a)) := Real.arccos_nonneg _
  have hθhalf : Real.arccos (Real.sqrt (1 - a)) ≤ π / 2 :=
    Real.arccos_le_pi_div_two.mpr (Real.sqrt_nonneg _)
  have hstep1 : atan2 (Real.sqrt a) (Real.sqrt (1 - a)) =
      Real.arccos (Real.sqrt (1 - a)) := by
    rcases lt_or_eq_of_le (Real.sqrt_nonneg (1 - a)) with hpos | hzero
    · have hθlt : Real.arccos (Real.sqrt (1 - a)) < π / 2 :=
        Real.arccos_lt_pi_div_two.mpr hpos
      have htan : Real.sqrt a / Real.sqrt (1 - a) =
          Real.tan (Real.arccos (Real.sqrt (1 - a))) := by
        rw [Real.tan_eq_sin_div_cos, hsinθ, hcosθ]
      rw [atan2, if_pos hpos, htan]
      exact Real.arctan_tan (by linarith [Real.pi_pos]) hθlt
    · have ha1 : a = 1 := by
        have := (Real.sqrt_eq_zero hsub).mp hzero.symm
        linarith
      subst ha1
      rw [← hzero]
      norm_num [atan2, Real.sqrt_one, Real.arccos_zero]
  have hcos2 : Real.cos (2 * Real.arccos (Real.sqrt (1 - a))) = 1 - 2 * a := by
    rw [Real.cos_two_mul, hcosθ, Real.sq_sqrt hsub]
    ring
  rw [hstep1, ← hcos2, Real.arccos_cos (by linarith) (by linarith)]

lemma radians_sub (x y : ℝ) : radians (x - y) = radians x - radians y := by
  unfold radians
  ring

/-- The quantity `a` of the haversine formula equals `(1 - ip) / 2` for the
inner product of the two unit vectors. -/
lemma haversine_a_eq (lat1 lon1 lat2 lon2 : ℝ) :
    Real.sin (radians (lat2 - lat1) / 2) * Real.sin (radians (lat2 - lat1) / 2) +
      Real.cos (radians lat1) * Real.cos (radians lat2) *
        Real.sin (radians (lon2 - lon1) / 2) * Real.sin (radians (lon2 - lon1) / 2) =
    (1 - ⟪sphVec (radians lat1) (radians lon1), sphVec (radians lat2) (radians lon2)⟫) / 2 := by
  rw [sphVec_inner]
  have hhalf : ∀ t : ℝ, Real.sin (t / 2) * Real.sin (t / 2) = (1 - Real.cos t) / 2 := by
    intro t
    have hc : Real.cos (2 * (t / 2)) = 2 * Real.cos (t / 2) ^ 2 - 1 := Real.cos_two_mul _
    have ht : 2 * (t / 2) = t := by ring
    rw [ht] at hc
    have hs := Real.sin_sq_add_cos_sq (t / 2)
    nlinarith [hs, hc]
  have h1 := hhalf (radians lat2 - radians lat1)
  have h2 := hhalf (radians lon2 - radians lon1)
  rw [Real.cos_sub] at h1 h2
  rw [radians_sub lat2 lat1, radians_sub lon2 lon1, Real.cos_sub]
  linear_combination h1 + Real.cos (radians lat1) * Real.cos (radians lat2) * h2

/-- For in-range latitudes the haversine distance is the Earth radius times
the arccos of the inner product of the two unit vectors. -/
lemma haversine_eq_arccos (lat1 lon1 lat2 lon2 : ℝ)
    (h1 : |lat1| ≤ 90) (h2 : |lat2| ≤ 90) :
    haversine_distance lat1 lon1 lat2 lon2 =
      6371000 * Real.arccos
        ⟪sphVec (radians lat1) (radians lon1), sphVec (radians lat2) (radians lon2)⟫ := by
  have hcos1 : 0 ≤ Real.cos (radians lat1) := by
    apply Real.cos_nonneg_of_mem_Icc
    constructor
    · have := abs_le.mp h1
      unfold radians
      nlinarith [Real.pi_pos]
    · have := abs_le.mp h1
      unfold radians
      nlinarith [Real.pi_pos]
  have hcos2 : 0 ≤ Real.cos (radians lat2) := by
    apply Real.cos_nonneg_of_mem_Icc
    constructor
    · have := abs_le.mp h2
      unfold radians
      nlinarith [Real.pi_pos]
    · have := abs_le.mp h2
      unfold radians
      nlinarith [Real.pi_pos]
  have ha_eq := haversine_a_eq lat1 lon1 lat2 lon2
  have hip := sphVec_inner_abs_le (radians lat1) (radians lon1) (radians lat2) (radians lon2)
  obtain ⟨hipl, hipr⟩ := abs_le.mp hip
  have ha0 : 0 ≤ Real.sin (radians (lat2 - lat1) / 2) * Real.sin (radians (lat2 - lat1) / 2) +
      Real.cos (radians lat1) * Real.cos (radians lat2) *
        Real.sin (radians (lon2 - lon1) / 2) * Real.sin (radians (lon2 - lon1) / 2) := by
    have hs1 := mul_self_nonneg (Real.sin (radians (lat2 - lat1) / 2))
    have hs2 := mul_self_nonneg (Real.sin (radians (lon2 - lon1) / 2))
    nlinarith
  have ha1 : Real.sin (radians (lat2 - lat1) / 2) * Real.sin (radians (lat2 - lat1) / 2) +
      Real.cos (radians lat1) * Real.cos (radians lat2) *
        Real.sin (radians (lon2 - lon1) / 2) * Real.sin (radians (lon2 - lon1) / 2) ≤ 1 := by
    rw [ha_eq]
    linarith
  show (6371000 : ℝ) *
      (2 * atan2 (Real.sqrt (Real.sin (radians (lat2 - lat1) / 2) *
          Real.sin (radians (lat2 - lat1) / 2) +
        Real.cos (radians lat1) * Real.cos (radians lat2) *
          Real.sin (radians (lon2 - lon1) / 2) * Real.sin (radians (lon2 - lon1) / 2)))
        (Real.sqrt (1 - (Real.sin (radians (lat2 - lat1) / 2) *
          Real.sin (radians (lat2 - lat1) / 2) +
        Real.cos (radians lat1) * Real.cos (radians lat2) *
          Real.sin (radians (lon2 - lon1) / 2) * Real.sin (radians (lon2 - lon1) / 2))))) =
      6371000 * Real.arccos
        ⟪sphVec (radians lat1) (radians lon1), sphVec (radians lat2) (radians lon2)⟫
  rw [two_atan2_sqrt _ ha0 ha1]
  congr 1
  rw [ha_eq]
  ring_nf

/-- C5: for valid latitudes the implemented haversine distance satisfies the
triangle inequality `d(A,C) ≤ d(A,B) + d(B,C)`, hence the gap penalty
`dist_to_prev + dist_to_next - original_gap` of the placement engine is
nonnegative for every triple of coordinates. -/
theorem haversine_triangle_penalty_nonneg (lat lon : ℝ) (p1 p2 : RPoint)
    (h0 : |lat| ≤ 90) (h1 : |p1.latitude| ≤ 90) (h2 : |p2.latitude| ≤ 90) :
    haversine_distance p1.latitude p1.longitude p2.latitude p2.longitude ≤
      haversine_distance p1.latitude p1.longitude lat lon +
        haversine_distance lat lon p2.latitude p2.longitude ∧
    0 ≤ distance_penalty lat lon p1 p2 := by
  have hu1 := sphVec_inner_self (radians p1.latitude) (radians p1.longitude)
  have huN := sphVec_inner_self (radians lat) (radians lon)
  have hu2 := sphVec_inner_self (radians p2.latitude) (radians p2.longitude)
  have hkey := inner_ge_of_unit hu1 huN hu2
  have hx := sphVec_inner_abs_le (radians p1.latitude) (radians p1.longitude)
    (radians lat) (radians lon)
  have hy := sphVec_inner_abs_le (radians lat) (radians lon)
    (radians p2.latitude) (radians p2.longitude)
  have htri := arccos_triangle hx hy hkey
  have e12 := haversine_eq_arccos p1.latitude p1.longitude p2.latitude p2.longitude h1 h2
  have e1N := haversine_eq_arccos p1.latitude p1.longitude lat lon h1 h0
  have eN1 := haversine_eq_arccos lat lon p1.latitude p1.longitude h0 h1
  have eN2 := haversine_eq_arccos lat lon p2.latitude p2.longitude h0 h2
  have hcommN1 :
      ⟪sphVec (radians lat) (radians lon),
        sphVec (radians p1.latitude) (radians p1.longitude)⟫ =
      ⟪sphVec (radians p1.latitude) (radians p1.longitude),
        sphVec (radians lat) (radians lon)⟫ :=
    real_inner_comm _ _
  have hscaled := mul_le_mul_of_nonneg_left htri (show (0 : ℝ) ≤ 6371000 by norm_num)
  constructor
  · rw [e12, e1N, eN2]
    linarith
  · rw [distance_penalty, eN1, eN2, e12, hcommN1]
    linarith

/-- C5 witness: the spec's synthetic straight-line configuration. -/
theorem haversine_triangle_penalty_nonneg_witness :
    (|(0 : ℝ)| ≤ 90 ∧
      |(⟨1, 0, 0, 0, none, none, none, none⟩ : RPoint).latitude| ≤ 90 ∧
      |(⟨2, 0, 1, 60, none, none, none, none⟩ : RPoint).latitude| ≤ 90) ∧
    (haversine_distance (⟨1, 0, 0, 0, none, none, none, none⟩ : RPoint).latitude
        (⟨1, 0, 0, 0, none, none, none, none⟩ : RPoint).longitude
        (⟨2, 0, 1, 60, none, none, none, none⟩ : RPoint).latitude
        (⟨2, 0, 1, 60, none, none, none, none⟩ : RPoint).longitude ≤
      haversine_distance (⟨1, 0, 0, 0, none, none, none, none⟩ : RPoint).latitude
        (⟨1, 0, 0, 0, none, none, none, none⟩ : RPoint).longitude 0 (1/2) +
        haversine_distance 0 (1/2)
          (⟨2, 0, 1, 60, none, none, none, none⟩ : RPoint).latitude
          (⟨2, 0, 1, 60, none, none, none, none⟩ : RPoint).longitude ∧
      0 ≤ distance_penalty 0 (1/2) ⟨1, 0, 0, 0, none, none, none, none⟩
        ⟨2, 0, 1, 60, none, none, none, none⟩) :=
  ⟨⟨by norm_num, by norm_num, by norm_num⟩,
    haversine_triangle_penalty_nonneg 0 (1/2) ⟨1, 0, 0, 0, none, none, none, none⟩
      ⟨2, 0, 1, 60, none, none, none, none⟩ (by norm_num) (by norm_num) (by norm_num)⟩

end RouteEditor
